import Mathlib

/-
Verification of the hook-execution core of the kata runtime
(src/pkg/katautils/hook.go).

The Go code launches external hook processes.  The shallow embedding makes
the interaction with the operating system explicit: every `runHook`
invocation is driven by a `ProcEnv` record describing what the OS and the
subprocess do during that invocation (the outcome of json.Marshal, of
cmd.Start, the bytes the child writes to its stdout and stderr buffers, and
which arm of the timed select fires first).  Go error values are modelled by
their message strings; `none` is a nil error.  `runHook` returns, besides
the error, the observable effects the claims talk about: whether a process
was started, whether a SIGKILL was issued, whether the call blocks forever
(untimed wait on a process that never exits), and the JSON payload written
to the child's standard input.
-/

namespace KataHook

/-- specs.Hook (vendored OCI runtime-spec): path, argument list, environment
list and the optional timeout in whole seconds (`Timeout *int`, nil meaning
wait indefinitely). -/
structure Hook where
  path : String
  args : List String
  env : List String
  timeout : Option Int
deriving DecidableEq

/-- Modelled from the spec: the ContainerRuntimeState payload
(specs.State is vendored outside src/).  The spec fixes the shape to a
process/thread id, the bundle path and the container id. -/
structure State where
  pid : Int
  bundle : String
  id : String
deriving DecidableEq

/-- Modelled from the spec: JSON field values occurring in the state
payload (an integer for pid, strings for bundle path and container id). -/
inductive JVal where
  | jint : Int → JVal
  | jstr : String → JVal
deriving DecidableEq

/-- Modelled from the spec: json.Marshal of the state payload, as the
ordered list of JSON fields it emits.  The spec fixes the shape to exactly
`\x7b"pid": <integer>, "bundlePath": "<string>", "id": "<string>"\x7d`. -/
def marshalState (s : State) : List (String × JVal) :=
  [("pid", JVal.jint s.pid), ("bundlePath", JVal.jstr s.bundle), ("id", JVal.jstr s.id)]

/-- Modelled from the spec: parsing the delivered JSON payload back into a
state record; anything other than the fixed three-field shape is rejected. -/
def parseState : List (String × JVal) → Option State
  | [("pid", JVal.jint p), ("bundlePath", JVal.jstr b), ("id", JVal.jstr i)] =>
      some { pid := p, bundle := b, id := i }
  | _ => none

/-- Look up a field of a JSON object by name. -/
def lookupField (j : List (String × JVal)) (k : String) : Option JVal :=
  (j.find? (fun p => p.1 == k)).map (fun p => p.2)

/-- Which arm of the race between `cmd.Wait` and the deadline fires first.
`waitReturned e` : the background wait delivered result `e` (for an untimed
hook this is simply the result of the blocking `cmd.Wait`).
`deadlineFirst k` : the deadline timer fired while the process was still
running, and the subsequent `syscall.Kill(..., SIGKILL)` returned `k`; for
an untimed hook this same datum means `cmd.Wait` never returns at all. -/
inductive WaitRace where
  | waitReturned : Option String → WaitRace
  | deadlineFirst : Option String → WaitRace
deriving DecidableEq

/-- The environment of one `runHook` invocation: everything the OS decides.
`pid` is the process id of the invoking caller (getpid), `tid` the id of
the invoking thread, i.e. what `syscall.Gettid()` returns; the source reads
only `tid`, `pid` is carried so the two can be compared.  `marshalErr` and
`startErr` are the outcomes of `json.Marshal` and `cmd.Start`; `stdout` and
`stderr` are the captured buffers; `race` is the wait/deadline outcome. -/
structure ProcEnv where
  pid : Int
  tid : Int
  marshalErr : Option String
  startErr : Option String
  stdout : String
  stderr : String
  race : WaitRace
deriving DecidableEq

/-- The observable outcome of one `runHook` invocation. -/
structure HookRunResult where
  err : Option String
  started : Bool
  killSent : Bool
  blocked : Bool
  payload : Option (List (String × JVal))
deriving DecidableEq

/-- The fixed message of the timeout error: `fmt.Errorf("Hook timeout")`. -/
def hookTimeoutMsg : String := "Hook timeout"

/-- The message built by
`fmt.Errorf("%s: stdout: %s, stderr: %s", err, stdout.String(), stderr.String())`. -/
def execErrorMsg (waitErr stdout stderr : String) : String :=
  waitErr ++ ": stdout: " ++ stdout ++ ", stderr: " ++ stderr

/-- The state value built at the top of `runHook`:
`specs.State\x7bPid: syscall.Gettid(), Bundle: bundlePath, ID: cid\x7d`. -/
def hookState (env : ProcEnv) (cid bundlePath : String) : State :=
  { pid := env.tid, bundle := bundlePath, id := cid }

/-- Embedding of `runHook` (src/pkg/katautils/hook.go:30-91).  Marshals the
state, starts the command with the payload on stdin, then either waits
(no timeout) or races the wait against the deadline timer, killing the
process when the deadline fires first. -/
def runHook (env : ProcEnv) (hook : Hook) (cid bundlePath : String) : HookRunResult :=
  let stateJSON := marshalState (hookState env cid bundlePath)
  match env.marshalErr with
  | some e => { err := some e, started := false, killSent := false, blocked := false, payload := none }
  | none =>
    match env.startErr with
    | some e => { err := some e, started := false, killSent := false, blocked := false, payload := none }
    | none =>
      match hook.timeout with
      | none =>
        match env.race with
        | WaitRace.waitReturned none =>
            { err := none, started := true, killSent := false, blocked := false, payload := some stateJSON }
        | WaitRace.waitReturned (some w) =>
            { err := some (execErrorMsg w env.stdout env.stderr), started := true,
              killSent := false, blocked := false, payload := some stateJSON }
        | WaitRace.deadlineFirst _ =>
            { err := none, started := true, killSent := false, blocked := true, payload := some stateJSON }
      | some _ =>
        match env.race with
        | WaitRace.waitReturned none =>
            { err := none, started := true, killSent := false, blocked := false, payload := some stateJSON }
        | WaitRace.waitReturned (some w) =>
            { err := some (execErrorMsg w env.stdout env.stderr), started := true,
              killSent := false, blocked := false, payload := some stateJSON }
        | WaitRace.deadlineFirst (some k) =>
            { err := some k, started := true, killSent := true, blocked := false, payload := some stateJSON }
        | WaitRace.deadlineFirst none =>
            { err := some hookTimeoutMsg, started := true, killSent := true, blocked := false, payload := some stateJSON }

/-- The observable outcome of a `runHooks` sequence: the returned error,
how many hook invocations were begun (`runHook` entered), how many OS
processes were actually started, and whether the sequence blocks forever
inside some hook. -/
structure SeqResult where
  err : Option String
  invoked : Nat
  launched : Nat
  blocked : Bool
deriving DecidableEq

/-- The loop of `runHooks`: run each hook in order, feeding invocation
number `n` the environment `oracle n`; stop and return on the first error. -/
def runHooksAux (oracle : Nat → ProcEnv) (cid bundlePath : String) :
    List Hook → SeqResult
  | [] => { err := none, invoked := 0, launched := 0, blocked := false }
  | h :: rest =>
    let r := runHook (oracle 0) h cid bundlePath
    if r.blocked then
      { err := none, invoked := 1, launched := if r.started then 1 else 0, blocked := true }
    else
      match r.err with
      | some e =>
          { err := some e, invoked := 1, launched := if r.started then 1 else 0, blocked := false }
      | none =>
          let s := runHooksAux (fun n => oracle (n + 1)) cid bundlePath rest
          { err := s.err, invoked := 1 + s.invoked,
            launched := (if r.started then 1 else 0) + s.launched, blocked := s.blocked }

/-- Embedding of `runHooks` (src/pkg/katautils/hook.go:93-111).  The
`hookType` label is used only for tracing and logging and does not affect
the result. -/
def runHooks (oracle : Nat → ProcEnv) (hooks : List Hook)
    (cid bundlePath hookType : String) : SeqResult :=
  runHooksAux oracle cid bundlePath hooks

/-- Modelled from the spec: the hooks section of the OCI container
specification (specs.Hooks is vendored outside src/): three ordered hook
lists keyed by phase. -/
structure Hooks where
  prestart : List Hook
  poststart : List Hook
  poststop : List Hook

/-- Modelled from the spec: the container specification
(oci.CompatOCISpec lives outside src/); only its optional hooks section is
read by this core. -/
structure CompatOCISpec where
  hooks : Option Hooks

/-- Embedding of `PreStartHooks` (src/pkg/katautils/hook.go:113-121). -/
def PreStartHooks (oracle : Nat → ProcEnv) (spec : CompatOCISpec)
    (cid bundlePath : String) : SeqResult :=
  match spec.hooks with
  | none => { err := none, invoked := 0, launched := 0, blocked := false }
  | some hs => runHooks oracle hs.prestart cid bundlePath "pre-start"

/-- Embedding of `PostStartHooks` (src/pkg/katautils/hook.go:123-131). -/
def PostStartHooks (oracle : Nat → ProcEnv) (spec : CompatOCISpec)
    (cid bundlePath : String) : SeqResult :=
  match spec.hooks with
  | none => { err := none, invoked := 0, launched := 0, blocked := false }
  | some hs => runHooks oracle hs.poststart cid bundlePath "post-start"

/-- Embedding of `PostStopHooks` (src/pkg/katautils/hook.go:133-141). -/
def PostStopHooks (oracle : Nat → ProcEnv) (spec : CompatOCISpec)
    (cid bundlePath : String) : SeqResult :=
  match spec.hooks with
  | none => { err := none, invoked := 0, launched := 0, blocked := false }
  | some hs => runHooks oracle hs.poststop cid bundlePath "post-stop"

/-- `pat` occurs as a contiguous substring of `s`. -/
def strContains (s pat : String) : Prop :=
  ∃ a b : List Char, a ++ pat.data ++ b = s.data

/-- A sample environment in which everything succeeds. -/
def envOk : ProcEnv :=
  { pid := 10, tid := 11, marshalErr := none, startErr := none,
    stdout := "", stderr := "", race := WaitRace.waitReturned none }

/-- C1: for a timed hook whose process is still running when the deadline
fires, `runHook` issues the unconditional kill and returns the distinct
timeout failure; if the kill itself fails, that kill error is returned
instead of the timeout failure; and when the process exits before the
deadline the whole result is exactly that of the untimed invocation. -/
theorem runHook_timeout_contract (env : ProcEnv) (hook : Hook)
    (cid bundlePath : String) (t : Int) (htimed : hook.timeout = some t)
    (hm : env.marshalErr = none) (hs : env.startErr = none) :
    (env.race = WaitRace.deadlineFirst none →
      (runHook env hook cid bundlePath).killSent = true ∧
      (runHook env hook cid bundlePath).err = some hookTimeoutMsg) ∧
    (∀ k, env.race = WaitRace.deadlineFirst (some k) →
      (runHook env hook cid bundlePath).killSent = true ∧
      (runHook env hook cid bundlePath).err = some k) ∧
    (∀ w, env.race = WaitRace.waitReturned w →
      runHook env hook cid bundlePath =
        runHook env { hook with timeout := none } cid bundlePath) := by
  refine ⟨fun hr => ?_, fun k hr => ?_, fun w hr => ?_⟩
  · simp [runHook, hm, hs, htimed, hr]
  · simp [runHook, hm, hs, htimed, hr]
  · cases w <;> simp [runHook, hm, hs, htimed, hr]

/-- C1 witness: a concrete timed hook that reaches the deadline with a
successful kill. -/
theorem runHook_timeout_contract_witness :
    (({ envOk with race := WaitRace.deadlineFirst none } : ProcEnv).race =
        WaitRace.deadlineFirst none →
      (runHook { envOk with race := WaitRace.deadlineFirst none }
          { path := "/h", args := [], env := [], timeout := some 1 } "c" "b").killSent = true ∧
      (runHook { envOk with race := WaitRace.deadlineFirst none }
          { path := "/h", args := [], env := [], timeout := some 1 } "c" "b").err =
        some hookTimeoutMsg) ∧
    (∀ k, ({ envOk with race := WaitRace.deadlineFirst none } : ProcEnv).race =
        WaitRace.deadlineFirst (some k) →
      (runHook { envOk with race := WaitRace.deadlineFirst none }
          { path := "/h", args := [], env := [], timeout := some 1 } "c" "b").killSent = true ∧
      (runHook { envOk with race := WaitRace.deadlineFirst none }
          { path := "/h", args := [], env := [], timeout := some 1 } "c" "b").err = some k) ∧
    (∀ w, ({ envOk with race := WaitRace.deadlineFirst none } : ProcEnv).race =
        WaitRace.waitReturned w →
      runHook { envOk with race := WaitRace.deadlineFirst none }
          { path := "/h", args := [], env := [], timeout := some 1 } "c" "b" =
        runHook { envOk with race := WaitRace.deadlineFirst none }
          { path := "/h", args := [], env := [], timeout := none } "c" "b") :=
  runHook_timeout_contract _ _ "c" "b" 1 rfl rfl rfl

/-- C3: running `runHooks` on the empty hook list returns success with no
hook invoked and no process launched. -/
theorem runHooks_nil (oracle : Nat → ProcEnv) (cid bundlePath hookType : String) :
    runHooks oracle [] cid bundlePath hookType =
      { err := none, invoked := 0, launched := 0, blocked := false } := rfl

/-- C8: when the container specification has no hooks section, all three
lifecycle entry points return success immediately, with no hook invocation
and no process launched. -/
theorem lifecycleHooks_none (oracle : Nat → ProcEnv) (spec : CompatOCISpec)
    (cid bundlePath : String) (h : spec.hooks = none) :
    PreStartHooks oracle spec cid bundlePath =
      { err := none, invoked := 0, launched := 0, blocked := false } ∧
    PostStartHooks oracle spec cid bundlePath =
      { err := none, invoked := 0, launched := 0, blocked := false } ∧
    PostStopHooks oracle spec cid bundlePath =
      { err := none, invoked := 0, launched := 0, blocked := false } := by
  refine ⟨?_, ?_, ?_⟩ <;> simp [PreStartHooks, PostStartHooks, PostStopHooks, h]

/-- C8 witness: the concrete specification with an absent hooks section. -/
theorem lifecycleHooks_none_witness :
    PreStartHooks (fun _ => envOk) { hooks := none } "c" "b" =
      { err := none, invoked := 0, launched := 0, blocked := false } ∧
    PostStartHooks (fun _ => envOk) { hooks := none } "c" "b" =
      { err := none, invoked := 0, launched := 0, blocked := false } ∧
    PostStopHooks (fun _ => envOk) { hooks := none } "c" "b" =
      { err := none, invoked := 0, launched := 0, blocked := false } :=
  lifecycleHooks_none (fun _ => envOk) { hooks := none } "c" "b" rfl

/-- C9: when serializing the state payload fails, `runHook` returns the
serialization error itself and no process is launched, no kill signal is
ever sent and nothing is delivered on stdin. -/
theorem runHook_marshal_error (env : ProcEnv) (hook : Hook)
    (cid bundlePath : String) (e : String) (hm : env.marshalErr = some e) :
    runHook env hook cid bundlePath =
      { err := some e, started := false, killSent := false, blocked := false,
        payload := none } := by
  simp [runHook, hm]

/-- The exec error message embeds the captured stdout text. -/
lemma strContains_execErrorMsg_stdout (w out er : String) :
    strContains (execErrorMsg w out er) out :=
  ⟨(w ++ ": stdout: ").data, (", stderr: " ++ er).data, by
    simp [execErrorMsg, String.data_append, List.append_assoc]⟩

/-- The exec error message embeds the captured stderr text. -/
lemma strContains_execErrorMsg_stderr (w out er : String) :
    strContains (execErrorMsg w out er) er :=
  ⟨(w ++ ": stdout: " ++ out ++ ", stderr: ").data, [], by
    simp [execErrorMsg, String.data_append, List.append_assoc]⟩

/-- The exec error message is never the fixed timeout message (it is
always strictly longer than "Hook timeout"). -/
lemma execErrorMsg_ne_hookTimeoutMsg (w out er : String) :
    execErrorMsg w out er ≠ hookTimeoutMsg := by
  intro h
  have hd : (execErrorMsg w out er).data.length = hookTimeoutMsg.data.length :=
    congrArg (fun s => s.data.length) h
  have h1 : (": stdout: " : String).data.length = 10 := rfl
  have h2 : (", stderr: " : String).data.length = 10 := rfl
  have h3 : hookTimeoutMsg.data.length = 12 := rfl
  simp only [execErrorMsg, String.data_append, List.length_append, h1, h2, h3] at hd
  omega

/-- C4: an untimed hook whose wait returns an error yields a failure whose
message embeds both the captured stdout and the captured stderr. -/
theorem runHook_exec_error_output (env : ProcEnv) (hook : Hook)
    (cid bundlePath : String) (w : String)
    (ht : hook.timeout = none) (hm : env.marshalErr = none)
    (hs : env.startErr = none) (hw : env.race = WaitRace.waitReturned (some w)) :
    (runHook env hook cid bundlePath).err =
      some (execErrorMsg w env.stdout env.stderr) ∧
    strContains (execErrorMsg w env.stdout env.stderr) env.stdout ∧
    strContains (execErrorMsg w env.stdout env.stderr) env.stderr :=
  ⟨by simp [runHook, hm, hs, ht, hw],
   strContains_execErrorMsg_stdout w env.stdout env.stderr,
   strContains_execErrorMsg_stderr w env.stdout env.stderr⟩

/-- C4 witness: a concrete untimed hook exiting non-zero with captured
output on both streams. -/
theorem runHook_exec_error_output_witness :
    (runHook { envOk with stdout := "out text", stderr := "err text",
                          race := WaitRace.waitReturned (some "exit status 1") }
        { path := "/h", args := [], env := [], timeout := none } "c" "b").err =
      some (execErrorMsg "exit status 1" "out text" "err text") ∧
    strContains (execErrorMsg "exit status 1" "out text" "err text") "out text" ∧
    strContains (execErrorMsg "exit status 1" "out text" "err text") "err text" :=
  runHook_exec_error_output _ _ "c" "b" "exit status 1" rfl rfl rfl rfl

/-- C10: a timed-out invocation whose kill succeeds returns the fixed
message "Hook timeout"; that message is the same whatever the captured
streams are (so it embeds neither of them), in contrast to the non-zero
exit failure whose message embeds both streams and never coincides with
the timeout message. -/
theorem runHook_timeout_msg_fixed (env : ProcEnv) (hook : Hook)
    (cid bundlePath : String) (t : Int) (htimed : hook.timeout = some t)
    (hm : env.marshalErr = none) (hs : env.startErr = none)
    (hr : env.race = WaitRace.deadlineFirst none) :
    (runHook env hook cid bundlePath).err = some hookTimeoutMsg ∧
    (∀ out er,
      (runHook { env with stdout := out, stderr := er } hook cid bundlePath).err =
        some hookTimeoutMsg) ∧
    (∀ w out er, strContains (execErrorMsg w out er) out ∧
      strContains (execErrorMsg w out er) er ∧
      execErrorMsg w out er ≠ hookTimeoutMsg) := by
  refine ⟨by simp [runHook, hm, hs, htimed, hr],
    fun out er => by simp [runHook, hm, hs, htimed, hr],
    fun w out er => ⟨strContains_execErrorMsg_stdout w out er,
      strContains_execErrorMsg_stderr w out er,
      execErrorMsg_ne_hookTimeoutMsg w out er⟩⟩

/-- C10 witness: a concrete timed hook with nonempty captured streams that
reaches the deadline and is killed successfully. -/
theorem runHook_timeout_msg_fixed_witness :
    (runHook { envOk with stdout := "o", stderr := "e",
                          race := WaitRace.deadlineFirst none }
        { path := "/h", args := [], env := [], timeout := some 2 } "c" "b").err =
      some hookTimeoutMsg ∧
    (∀ out er,
      (runHook { { envOk with stdout := "o", stderr := "e",
                              race := WaitRace.deadlineFirst none } with
                   stdout := out, stderr := er }
          { path := "/h", args := [], env := [], timeout := some 2 } "c" "b").err =
        some hookTimeoutMsg) ∧
    (∀ w out er, strContains (execErrorMsg w out er) out ∧
      strContains (execErrorMsg w out er) er ∧
      execErrorMsg w out er ≠ hookTimeoutMsg) :=
  runHook_timeout_msg_fixed _ _ "c" "b" 2 rfl rfl rfl rfl

/-- C9 witness: a concrete invocation whose marshal step fails. -/
theorem runHook_marshal_error_witness :
    runHook { envOk with marshalErr := some "bad state" }
        { path := "/h", args := [], env := [], timeout := none } "c" "b" =
      { err := some "bad state", started := false, killSent := false,
        blocked := false, payload := none } :=
  runHook_marshal_error _ _ "c" "b" "bad state" rfl

/-- A hook invocation that returns an error did not block. -/
lemma runHook_err_not_blocked (env : ProcEnv) (hook : Hook)
    (cid bundlePath : String) (e : String)
    (h : (runHook env hook cid bundlePath).err = some e) :
    (runHook env hook cid bundlePath).blocked = false := by
  cases hm : env.marshalErr <;> cases hs : env.startErr <;>
    cases ht : hook.timeout <;> rcases hr : env.race with (_ | w) | (_ | k) <;>
    simp_all [runHook]

/-- Fail-fast characterization of the `runHooks` loop: when every hook
before position `k = pre.length` succeeds and the hook at position `k`
fails with error `e`, the sequence returns `e` and invokes exactly the
first `k + 1` hooks. -/
lemma runHooksAux_fail (cid bundlePath : String) (e : String) :
    ∀ (pre : List Hook) (oracle : Nat → ProcEnv) (h : Hook) (post : List Hook),
    (∀ j (hj : j < pre.length),
       (runHook (oracle j) (pre.get ⟨j, hj⟩) cid bundlePath).err = none ∧
       (runHook (oracle j) (pre.get ⟨j, hj⟩) cid bundlePath).blocked = false) →
    (runHook (oracle pre.length) h cid bundlePath).err = some e →
    (runHooksAux oracle cid bundlePath (pre ++ h :: post)).err = some e ∧
    (runHooksAux oracle cid bundlePath (pre ++ h :: post)).invoked = pre.length + 1
  | [], oracle, h, post, _, hfail => by
    simp only [List.length_nil] at hfail
    have hb := runHook_err_not_blocked (oracle 0) h cid bundlePath e hfail
    simp [runHooksAux, hb, hfail]
  | p :: pre, oracle, h, post, hpre, hfail => by
    have h0 : (runHook (oracle 0) p cid bundlePath).err = none ∧
        (runHook (oracle 0) p cid bundlePath).blocked = false :=
      hpre 0 (Nat.succ_pos _)
    have ih := runHooksAux_fail cid bundlePath e pre (fun n => oracle (n + 1)) h post
      (fun j hj => hpre (j + 1) (Nat.succ_lt_succ hj)) hfail
    refine ⟨?_, ?_⟩ <;>
      simp [runHooksAux, h0.1, h0.2, ih.1, ih.2] <;> omega

/-- C2: when every hook before position `k = pre.length` succeeds and the
hook at position `k` fails, `runHooks` returns that hook's failure and
invokes exactly `k + 1` hooks, so no hook at an index greater than `k` is
ever started. -/
theorem runHooks_fail_fast (oracle : Nat → ProcEnv)
    (cid bundlePath hookType : String) (pre : List Hook) (h : Hook)
    (post : List Hook) (e : String)
    (hpre : ∀ j (hj : j < pre.length),
       (runHook (oracle j) (pre.get ⟨j, hj⟩) cid bundlePath).err = none ∧
       (runHook (oracle j) (pre.get ⟨j, hj⟩) cid bundlePath).blocked = false)
    (hfail : (runHook (oracle pre.length) h cid bundlePath).err = some e) :
    (runHooks oracle (pre ++ h :: post) cid bundlePath hookType).err = some e ∧
    (runHooks oracle (pre ++ h :: post) cid bundlePath hookType).invoked =
      pre.length + 1 :=
  runHooksAux_fail cid bundlePath e pre oracle h post hpre hfail

/-- A failing untimed hook used in witnesses: its wait returns "boom". -/
def envFail : ProcEnv :=
  { envOk with race := WaitRace.waitReturned (some "boom") }

/-- The witness oracle: invocation 0 succeeds, every later one fails. -/
def oracleW : Nat → ProcEnv := fun n => if n = 0 then envOk else envFail

/-- A concrete untimed hook used in witnesses. -/
def hookW : Hook := { path := "/h", args := [], env := [], timeout := none }

/-- C2 witness: three concrete hooks of which the second fails; the
returned error is the second's and only two hooks are invoked. -/
theorem runHooks_fail_fast_witness :
    (runHooks oracleW ([hookW] ++ hookW :: [hookW]) "c" "b" "pre-start").err =
      some (execErrorMsg "boom" "" "") ∧
    (runHooks oracleW ([hookW] ++ hookW :: [hookW]) "c" "b" "pre-start").invoked =
      [hookW].length + 1 :=
  runHooks_fail_fast oracleW "c" "b" "pre-start" [hookW] hookW [hookW]
    (execErrorMsg "boom" "" "")
    (fun j hj => by
      have hj0 : j = 0 := Nat.lt_one_iff.mp hj
      subst hj0
      exact ⟨rfl, rfl⟩)
    rfl

/-- C5: the error returned by `runHooks` is exactly the error value
returned by `runHook` for the first failing hook, with no wrapping. -/
theorem runHooks_first_error_verbatim (oracle : Nat → ProcEnv)
    (cid bundlePath hookType : String) (pre : List Hook) (h : Hook)
    (post : List Hook) (e : String)
    (hpre : ∀ j (hj : j < pre.length),
       (runHook (oracle j) (pre.get ⟨j, hj⟩) cid bundlePath).err = none ∧
       (runHook (oracle j) (pre.get ⟨j, hj⟩) cid bundlePath).blocked = false)
    (hfail : (runHook (oracle pre.length) h cid bundlePath).err = some e) :
    (runHooks oracle (pre ++ h :: post) cid bundlePath hookType).err =
      (runHook (oracle pre.length) h cid bundlePath).err := by
  rw [hfail]
  exact (runHooksAux_fail cid bundlePath e pre oracle h post hpre hfail).1

/-- C5 witness: the error of the concrete failing second hook is returned
verbatim. -/
theorem runHooks_first_error_verbatim_witness :
    (runHooks oracleW ([hookW] ++ hookW :: [hookW]) "c" "b" "post-start").err =
      (runHook (oracleW [hookW].length) hookW "c" "b").err :=
  runHooks_first_error_verbatim oracleW "c" "b" "post-start" [hookW] hookW [hookW]
    (execErrorMsg "boom" "" "")
    (fun j hj => by
      have hj0 : j = 0 := Nat.lt_one_iff.mp hj
      subst hj0
      exact ⟨rfl, rfl⟩)
    rfl

/-- Whenever the payload is delivered at all (marshal and start both
succeed), it is the serialized `hookState`. -/
lemma runHook_payload (env : ProcEnv) (hook : Hook) (cid bundlePath : String)
    (hm : env.marshalErr = none) (hs : env.startErr = none) :
    (runHook env hook cid bundlePath).payload =
      some (marshalState (hookState env cid bundlePath)) := by
  cases ht : hook.timeout <;> rcases hr : env.race with (_ | w) | (_ | k) <;>
    simp_all [runHook]

/-- C6 (amended): the pid field of the state payload delivered on the
hook's standard input is the id of the invoking thread (syscall.Gettid),
not necessarily the caller's process id. -/
theorem runHook_pid_is_tid (env : ProcEnv) (hook : Hook)
    (cid bundlePath : String) (hm : env.marshalErr = none)
    (hs : env.startErr = none) :
    lookupField ((runHook env hook cid bundlePath).payload.getD []) "pid" =
      some (JVal.jint env.tid) := by
  rw [runHook_payload env hook cid bundlePath hm hs]
  rfl

/-- C6 witness: a concrete invocation from thread 101 of process 100
delivers pid 101. -/
theorem runHook_pid_is_tid_witness :
    lookupField ((runHook { envOk with pid := 100, tid := 101 } hookW
        "c" "b").payload.getD []) "pid" =
      some (JVal.jint ({ envOk with pid := 100, tid := 101 } : ProcEnv).tid) :=
  runHook_pid_is_tid { envOk with pid := 100, tid := 101 } hookW "c" "b" rfl rfl

/-- C6 counterexample: when the invoking thread's id (101) differs from the
caller's process id (100), the pid field of the delivered payload is not
the caller's process id. -/
theorem runHook_pid_not_process_id :
    lookupField ((runHook { envOk with pid := 100, tid := 101 } hookW
        "c" "b").payload.getD []) "pid" ≠
      some (JVal.jint ({ envOk with pid := 100, tid := 101 } : ProcEnv).pid) := by
  decide

/-- C7: the payload delivered to the hook is the serialized state; parsing
it back yields exactly that state, whose fields are the invoking thread's
id, the supplied bundle path and the supplied container id, and the JSON
object holds exactly the three fields pid, bundlePath and id. -/
theorem runHook_state_roundtrip (env : ProcEnv) (hook : Hook)
    (cid bundlePath : String) (hm : env.marshalErr = none)
    (hs : env.startErr = none) :
    (runHook env hook cid bundlePath).payload =
      some (marshalState (hookState env cid bundlePath)) ∧
    parseState (marshalState (hookState env cid bundlePath)) =
      some (hookState env cid bundlePath) ∧
    (marshalState (hookState env cid bundlePath)).map Prod.fst =
      ["pid", "bundlePath", "id"] ∧
    (hookState env cid bundlePath).pid = env.tid ∧
    (hookState env cid bundlePath).bundle = bundlePath ∧
    (hookState env cid bundlePath).id = cid :=
  ⟨runHook_payload env hook cid bundlePath hm hs, rfl, rfl, rfl, rfl, rfl⟩

/-- C7 witness: the concrete round trip for container "c7cid", bundle
"/bundles/c7" and invoking thread 7. -/
theorem runHook_state_roundtrip_witness :
    (runHook { envOk with pid := 6, tid := 7 } hookW "c7cid" "/bundles/c7").payload =
      some (marshalState (hookState { envOk with pid := 6, tid := 7 }
        "c7cid" "/bundles/c7")) ∧
    parseState (marshalState (hookState { envOk with pid := 6, tid := 7 }
        "c7cid" "/bundles/c7")) =
      some (hookState { envOk with pid := 6, tid := 7 } "c7cid" "/bundles/c7") ∧
    (marshalState (hookState { envOk with pid := 6, tid := 7 }
        "c7cid" "/bundles/c7")).map Prod.fst = ["pid", "bundlePath", "id"] ∧
    (hookState { envOk with pid := 6, tid := 7 } "c7cid" "/bundles/c7").pid =
      ({ envOk with pid := 6, tid := 7 } : ProcEnv).tid ∧
    (hookState { envOk with pid := 6, tid := 7 } "c7cid" "/bundles/c7").bundle =
      "/bundles/c7" ∧
    (hookState { envOk with pid := 6, tid := 7 } "c7cid" "/bundles/c7").id =
      "c7cid" :=
  runHook_state_roundtrip { envOk with pid := 6, tid := 7 } hookW
    "c7cid" "/bundles/c7" rfl rfl

end KataHook
